import Mathlib

/-!
Verification of the Zephyr integration layer (`mcp_atlassian_draft_do_not_use`):
a shallow embedding of the record model (`models/zephyr/*.py`), the resource
operations (`zephyr/testcase.py`, `zephyr/testresult.py`), the step-assembly
client (`zephyr/client.py`) and the error taxonomy (`exceptions.py`), together
with theorems settling the specification's testable properties.

JSON values are embedded as an inductive type; Python dictionaries become
insertion-ordered association lists; raised Python exceptions become the
error side of `Except`.  An HTTP exchange is abstracted as a `ReqOutcome`:
either the transport layer failed (in the source, `ZephyrClient.request`
converts any transport exception into `MCPAtlassianAuthenticationError`)
or a response with a status code and a parsed JSON body arrived.
-/

set_option autoImplicit false

/-- JSON values, as produced by `response.json()`. -/
inductive JValue where
  | null
  | bool (b : Bool)
  | num (n : Int)
  | str (s : String)
  | arr (elems : List JValue)
  | obj (fields : List (String × JValue))
  deriving Repr

/-- Structural decidable equality for `JValue` (the derive handler cannot
cope with the nested `List` occurrences, so it is spelled out). -/
def JValue.beq : JValue → JValue → Bool
  | .null, .null => true
  | .bool a, .bool b => a == b
  | .num a, .num b => a == b
  | .str a, .str b => a == b
  | .arr xs, .arr ys => beqList xs ys
  | .obj xs, .obj ys => beqFields xs ys
  | _, _ => false
where
  beqList : List JValue → List JValue → Bool
    | [], [] => true
    | x :: xs, y :: ys => x.beq y && beqList xs ys
    | _, _ => false
  beqFields : List (String × JValue) → List (String × JValue) → Bool
    | [], [] => true
    | (k, v) :: xs, (l, w) :: ys => k == l && v.beq w && beqFields xs ys
    | _, _ => false

theorem JValue.beq_refl : (v : JValue) → v.beq v = true
  | .null => rfl
  | .bool b => by simp [JValue.beq]
  | .num n => by simp [JValue.beq]
  | .str s => by simp [JValue.beq]
  | .arr xs => by simpa [JValue.beq] using beqList_refl xs
  | .obj fs => by simpa [JValue.beq] using beqFields_refl fs
where
  beqList_refl : (xs : List JValue) → JValue.beq.beqList xs xs = true
    | [] => rfl
    | x :: xs => by simp [JValue.beq.beqList, JValue.beq_refl x, beqList_refl xs]
  beqFields_refl : (fs : List (String × JValue)) → JValue.beq.beqFields fs fs = true
    | [] => rfl
    | (k, v) :: fs => by
        simp [JValue.beq.beqFields, JValue.beq_refl v, beqFields_refl fs]

theorem JValue.eq_of_beq : {a b : JValue} → a.beq b = true → a = b
  | .null, .null, _ => rfl
  | .bool a, .bool b, h => by simpa [JValue.beq] using h
  | .num a, .num b, h => by simpa [JValue.beq] using h
  | .str a, .str b, h => by simpa [JValue.beq] using h
  | .arr xs, .arr ys, h => by
      simp only [JValue.beq] at h
      exact congrArg JValue.arr (eqList_of_beq h)
  | .obj xs, .obj ys, h => by
      simp only [JValue.beq] at h
      exact congrArg JValue.obj (eqFields_of_beq h)
where
  eqList_of_beq : {xs ys : List JValue} → JValue.beq.beqList xs ys = true → xs = ys
    | [], [], _ => rfl
    | x :: xs, y :: ys, h => by
        simp only [JValue.beq.beqList, Bool.and_eq_true] at h
        exact congrArg₂ List.cons (JValue.eq_of_beq h.1) (eqList_of_beq h.2)
  eqFields_of_beq : {xs ys : List (String × JValue)} →
      JValue.beq.beqFields xs ys = true → xs = ys
    | [], [], _ => rfl
    | (k, v) :: xs, (l, w) :: ys, h => by
        simp only [JValue.beq.beqFields, Bool.and_eq_true] at h
        obtain ⟨⟨hk, hv⟩, hs⟩ := h
        have : k = l := by simpa using hk
        exact congrArg₂ List.cons (by rw [this, JValue.eq_of_beq hv])
          (eqFields_of_beq hs)

instance : DecidableEq JValue := fun a b =>
  if h : a.beq b = true then
    .isTrue (JValue.eq_of_beq h)
  else
    .isFalse (fun he => h (he ▸ JValue.beq_refl a))

/-- `dict.get(key)`: first binding of `key` in an insertion-ordered dict. -/
def lookupField : List (String × JValue) → String → Option JValue
  | [], _ => none
  | (k, v) :: rest, key => if k == key then some v else lookupField rest key

/-- Python truthiness of a JSON value (`if x:`): `None`, `False`, `0`, `""`,
`[]` and `{}` are falsy, everything else truthy. -/
def jTruthy : JValue → Bool
  | .null => false
  | .bool b => b
  | .num n => n != 0
  | .str s => !s.isEmpty
  | .arr elems => !elems.isEmpty
  | .obj fields => !fields.isEmpty

/-! ### Typed field extraction

`from_api_response` implementations read fields with `data.get(key, default)`
and hand them to typed (pydantic) record fields.  A missing key yields the
default; a present value of the declared type is accepted; a present value of
any other type makes record construction raise a validation error, embedded
here as `none`. -/

/-- A field declared `str` with default `d`. -/
def getStrD (fs : List (String × JValue)) (key : String) (d : String) :
    Option String :=
  match lookupField fs key with
  | none => some d
  | some (.str s) => some s
  | some _ => none

/-- A field declared `str | None` with default `None` (`data.get(key)`
returns `None` both for a missing key and for a stored JSON `null`). -/
def getOptStr (fs : List (String × JValue)) (key : String) :
    Option (Option String) :=
  match lookupField fs key with
  | none => some none
  | some .null => some none
  | some (.str s) => some (some s)
  | some _ => none

/-- A field declared `int | None` with default `None`. -/
def getOptInt (fs : List (String × JValue)) (key : String) :
    Option (Option Int) :=
  match lookupField fs key with
  | none => some none
  | some .null => some none
  | some (.num n) => some (some n)
  | some _ => none

/-- A field declared `list[str]` with default `[]`. -/
def getStrListD (fs : List (String × JValue)) (key : String) :
    Option (List String) :=
  match lookupField fs key with
  | none => some []
  | some (.arr elems) => collectStrings elems
  | some _ => none
where
  collectStrings : List JValue → Option (List String)
    | [] => some []
    | .str s :: rest => (collectStrings rest).map (s :: ·)
    | _ => none

/-- A field declared `dict[str, Any] | None` with default `None`. -/
def getObjOpt (fs : List (String × JValue)) (key : String) :
    Option (Option (List (String × JValue))) :=
  match lookupField fs key with
  | none => some none
  | some .null => some none
  | some (.obj inner) => some (some inner)
  | some _ => none

/-- A field declared `dict[str, Any]` with default `{}`. -/
def getObjD (fs : List (String × JValue)) (key : String) :
    Option (List (String × JValue)) :=
  match lookupField fs key with
  | none => some []
  | some (.obj inner) => some inner
  | some _ => none

/-! ### Record model: `ZephyrTestCase` (`models/zephyr/testcase.py`) -/

/-- `ZephyrTestCase` from `models/zephyr/testcase.py`, field for field
(`issue_links` is declared `list[str]`). -/
structure ZephyrTestCase where
  key : String := ""
  name : String := ""
  project_key : String := ""
  status : String := ""
  priority : String := ""
  component : Option String := none
  owner : Option String := none
  estimated_time : Option Int := none
  folder : Option String := none
  labels : List String := []
  objective : Option String := none
  precondition : Option String := none
  test_script : Option (List (String × JValue)) := none
  parameters : Option (List (String × JValue)) := none
  custom_fields : List (String × JValue) := []
  issue_links : List String := []
  created_on : String := ""
  last_modified_on : String := ""
  created_by : Option String := none
  last_modified_by : Option String := none
  deriving Repr, DecidableEq

/-- Field group 1 of `ZephyrTestCase.from_api_response` (source order):
`key`, `name`, `projectKey`, `status`, `priority`.  The grouping into four
helper readers is purely to keep Lean's elaboration of the twenty-field
read linear; each field is read with the same getter, key and default as
the source line. -/
def tcGroup1 (fs : List (String × JValue)) :
    Option (String × String × String × String × String) :=
  (getStrD fs "key" "").bind fun key =>
  (getStrD fs "name" "").bind fun name =>
  (getStrD fs "projectKey" "").bind fun project_key =>
  (getStrD fs "status" "").bind fun status =>
  (getStrD fs "priority" "").bind fun priority =>
  some (key, name, project_key, status, priority)

/-- Field group 2: `component`, `owner`, `estimatedTime`, `folder`. -/
def tcGroup2 (fs : List (String × JValue)) :
    Option (Option String × Option String × Option Int × Option String) :=
  (getOptStr fs "component").bind fun component =>
  (getOptStr fs "owner").bind fun owner =>
  (getOptInt fs "estimatedTime").bind fun estimated_time =>
  (getOptStr fs "folder").bind fun folder =>
  some (component, owner, estimated_time, folder)

/-- Field group 3: `labels`, `objective`, `precondition`, `testScript`,
`parameters`. -/
def tcGroup3 (fs : List (String × JValue)) :
    Option (List String × Option String × Option String ×
      Option (List (String × JValue)) × Option (List (String × JValue))) :=
  (getStrListD fs "labels").bind fun labels =>
  (getOptStr fs "objective").bind fun objective =>
  (getOptStr fs "precondition").bind fun precondition =>
  (getObjOpt fs "testScript").bind fun test_script =>
  (getObjOpt fs "parameters").bind fun parameters =>
  some (labels, objective, precondition, test_script, parameters)

/-- Field group 4: `customFields`, `issueLinks`, `createdOn`,
`lastModifiedOn`, `createdBy`, `lastModifiedBy`. -/
def tcGroup4 (fs : List (String × JValue)) :
    Option (List (String × JValue) × List String × String × String ×
      Option String × Option String) :=
  (getObjD fs "customFields").bind fun custom_fields =>
  (getStrListD fs "issueLinks").bind fun issue_links =>
  (getStrD fs "createdOn" "").bind fun created_on =>
  (getStrD fs "lastModifiedOn" "").bind fun last_modified_on =>
  (getOptStr fs "createdBy").bind fun created_by =>
  (getOptStr fs "lastModifiedBy").bind fun last_modified_by =>
  some (custom_fields, issue_links, created_on, last_modified_on,
    created_by, last_modified_by)

/-- `ZephyrTestCase.from_api_response`: construct the record from a JSON
body, with the source file's key names and defaults.  `none` embeds a raised
exception: the body is not a mapping (`data.get` raises `AttributeError`) or
a present field has the wrong type (pydantic validation error). -/
def ZephyrTestCase.from_api_response : JValue → Option ZephyrTestCase
  | .obj fs =>
    (tcGroup1 fs).bind fun (key, name, project_key, status, priority) =>
    (tcGroup2 fs).bind fun (component, owner, estimated_time, folder) =>
    (tcGroup3 fs).bind fun (labels, objective, precondition, test_script,
        parameters) =>
    (tcGroup4 fs).bind fun (custom_fields, issue_links, created_on,
        last_modified_on, created_by, last_modified_by) =>
    some (ZephyrTestCase.mk key name project_key status priority component
      owner estimated_time folder labels objective precondition test_script
      parameters custom_fields issue_links created_on last_modified_on
      created_by last_modified_by)
  | _ => none

/-- Modelled from the spec: the shared timestamp formatting function of
`TimestampMixin` (`mcp_atlassian.models.base`, outside this repository's
sources).  The spec fixes no format beyond "stable, deterministic, applied
uniformly" and its scenarios pass the empty-string default through
unchanged; it is modelled as the identity, and the claims evaluate it only
at the empty string. -/
def format_timestamp (s : String) : String := s

/-- An `if self.field:` optional entry for a `str | None` field: present in
the output exactly when the value is a non-empty string. -/
def optStrEntry (key : String) (v : Option String) : List (String × JValue) :=
  match v with
  | some s => if s.isEmpty then [] else [(key, .str s)]
  | none => []

/-- `ZephyrTestCase.to_simplified_dict`: the fixed nine-entry base mapping
followed by the conditionally added optional fields, in source order.
`folder`, `labels`, `created_on` and `last_modified_on` belong to the base
mapping and appear even at their defaults (`folder` as JSON `null`). -/
def ZephyrTestCase.to_simplified_dict (tc : ZephyrTestCase) :
    List (String × JValue) :=
  [("key", .str tc.key),
   ("name", .str tc.name),
   ("project_key", .str tc.project_key),
   ("status", .str tc.status),
   ("priority", .str tc.priority),
   ("folder", match tc.folder with | some s => .str s | none => .null),
   ("labels", .arr (tc.labels.map .str)),
   ("created_on", .str (format_timestamp tc.created_on)),
   ("last_modified_on", .str (format_timestamp tc.last_modified_on))]
  ++ optStrEntry "component" tc.component
  ++ optStrEntry "owner" tc.owner
  ++ (match tc.estimated_time with
      | some n => [("estimated_time", .num n)]
      | none => [])
  ++ optStrEntry "objective" tc.objective
  ++ optStrEntry "precondition" tc.precondition
  ++ (match tc.test_script with
      | some inner => if inner.isEmpty then [] else [("test_script", .obj inner)]
      | none => [])
  ++ (match tc.parameters with
      | some inner => if inner.isEmpty then [] else [("parameters", .obj inner)]
      | none => [])
  ++ (if tc.custom_fields.isEmpty then []
      else [("custom_fields", .obj tc.custom_fields)])
  ++ (if tc.issue_links.isEmpty then []
      else [("issue_links", .arr (tc.issue_links.map .str))])
  ++ optStrEntry "created_by" tc.created_by
  ++ optStrEntry "last_modified_by" tc.last_modified_by

/-! ### Record model: test steps (`models/zephyr/test_step.py`) -/

/-- `TestStep`: one step of a test script.  `order_id` and `step` have no
class default; `data`/`result` default to `""`, `step_id` to `None`. -/
structure TestStep where
  order_id : Int
  step : String
  data : String := ""
  result : String := ""
  step_id : Option Int := none
  deriving Repr, DecidableEq

/-- `TestStep.from_api_response`: `orderId` defaults to `0` when absent;
`step`/`data`/`result` default to `""`; `step_id` comes from `id`. -/
def TestStep.from_api_response : JValue → Option TestStep
  | .obj fs =>
    (getIntD fs "orderId" 0).bind fun order_id =>
    (getStrD fs "step" "").bind fun step =>
    (getStrD fs "data" "").bind fun data =>
    (getStrD fs "result" "").bind fun result =>
    (getOptInt fs "id").bind fun step_id =>
    some (TestStep.mk order_id step data result step_id)
  | _ => none
where
  /-- A field declared `int` with default `d`. -/
  getIntD (fs : List (String × JValue)) (key : String) (d : Int) :
      Option Int :=
    match lookupField fs key with
    | none => some d
    | some (.num n) => some n
    | some _ => none

/-- `TestStepRequest`: the input-only variant without an order. -/
structure TestStepRequest where
  step : String
  data : Option String := none
  result : Option String := none
  deriving Repr, DecidableEq

/-- `ZephyrTestSteps`: the ordered step collection for one issue/project
pair. -/
structure ZephyrTestSteps where
  issue_id : String
  project_id : String
  steps : List TestStep
  deriving Repr, DecidableEq

/-! ### Error taxonomy (`exceptions.py`) and the transport boundary

Python exceptions are embedded as a single inductive: the three typed
classes of the taxonomy plus `other` for everything untyped
(`httpx.HTTPStatusError`, pydantic validation errors, `AttributeError`,
...), carrying `str(e)`.  In the source `MCPAtlassianNotFoundError`
subclasses `MCPAtlassianError`, while `MCPAtlassianAuthenticationError`
subclasses `Exception` directly — so an `isinstance(e,
(MCPAtlassianNotFoundError, MCPAtlassianError))` test, and equally an
`isinstance(e, MCPAtlassianError)` test, accepts `mcpNotFound` and
`mcpError` but NOT `mcpAuth`. -/
inductive PyExc where
  | mcpAuth (msg : String)
  | mcpNotFound (msg : String)
  | mcpError (msg : String)
  | other (msg : String)
  deriving Repr, DecidableEq

/-- `str(e)`: the exception's message. -/
def PyExc.msgOf : PyExc → String
  | .mcpAuth m => m
  | .mcpNotFound m => m
  | .mcpError m => m
  | .other m => m

/-- `isinstance(e, MCPAtlassianError)` — also the meaning of
`isinstance(e, (MCPAtlassianNotFoundError, MCPAtlassianError))`, since
`MCPAtlassianNotFoundError` subclasses `MCPAtlassianError`. -/
def PyExc.isMCPAtlassianError : PyExc → Bool
  | .mcpNotFound _ => true
  | .mcpError _ => true
  | _ => false

deriving instance DecidableEq for Except

/-- Outcome of one `ZephyrClient.request` call: either the transport raised
(the source converts any such exception into
`MCPAtlassianAuthenticationError("Request failed: <cause>")`) or a response
with a status code and parsed JSON body arrived. -/
inductive ReqOutcome where
  | transportFail (msg : String)
  | response (status : Nat) (body : JValue)

/-- `httpx.Response.is_success`: status in the 2xx range. -/
def is_success (status : Nat) : Bool := 200 ≤ status && status < 300

/-- The untyped `httpx.HTTPStatusError` raised by
`response.raise_for_status()` on a non-2xx status (message modelled). -/
def httpStatusExc (status : Nat) : PyExc :=
  .other ("HTTP status error " ++ toString status)

/-- The `except` handler shared by `get`/`update`/`delete`/`search`
operations: an exception passing the `isinstance` test (not-found or
generic — not authentication) is re-raised unchanged; anything else is
wrapped as `MCPAtlassianError(ctx + str(e))`. -/
def reclassify (ctx : String) (e : PyExc) : PyExc :=
  if e.isMCPAtlassianError then e else .mcpError (ctx ++ e.msgOf)

/-- The `except` handler of `create_testcase` / `create_testresult` (and
the run-scoped result operations): every caught exception, typed or not,
is wrapped as `MCPAtlassianError(ctx + str(e))`. -/
def wrapAll (ctx : String) (e : PyExc) : PyExc :=
  .mcpError (ctx ++ e.msgOf)

/-- Apply an `except` handler to the result of a `try` body. -/
def runOp {α : Type} (handler : PyExc → PyExc) :
    Except PyExc α → Except PyExc α
  | .ok a => .ok a
  | .error e => .error (handler e)

/-! ### Resource operations (`zephyr/testcase.py`, `zephyr/testresult.py`)

Each operation is the `try` body (a function of the request outcome)
composed with its `except` handler. -/

/-- `try` body of `ZephyrTestCaseMixin.get_testcase`: 404 raises
`MCPAtlassianNotFoundError` naming the key, any other non-2xx raises via
`raise_for_status`, a 2xx body is parsed into a record. -/
def get_testcase_body (test_case_key : String) (o : ReqOutcome) :
    Except PyExc ZephyrTestCase :=
  match o with
  | .transportFail m => .error (.mcpAuth ("Request failed: " ++ m))
  | .response status body =>
    if status == 404 then
      .error (.mcpNotFound ("Test case " ++ test_case_key ++ " not found"))
    else if !is_success status then
      .error (httpStatusExc status)
    else
      match ZephyrTestCase.from_api_response body with
      | some tc => .ok tc
      | none => .error (.other "validation error")

/-- `ZephyrTestCaseMixin.get_testcase`. -/
def get_testcase (test_case_key : String) (o : ReqOutcome) :
    Except PyExc ZephyrTestCase :=
  runOp (reclassify "Failed to get test case: ") (get_testcase_body test_case_key o)

/-- `try` body of `ZephyrTestCaseMixin.create_testcase`: no 404 branch;
on 2xx the raw `result.get("key", "")` is returned (plain dict access,
no validation). -/
def create_testcase_body (o : ReqOutcome) : Except PyExc JValue :=
  match o with
  | .transportFail m => .error (.mcpAuth ("Request failed: " ++ m))
  | .response status body =>
    if !is_success status then
      .error (httpStatusExc status)
    else
      match body with
      | .obj fs => .ok ((lookupField fs "key").getD (.str ""))
      | _ => .error (.other "AttributeError")

/-- `ZephyrTestCaseMixin.create_testcase`: its `except` handler wraps every
caught exception, with no `isinstance` passthrough. -/
def create_testcase (o : ReqOutcome) : Except PyExc JValue :=
  runOp (wrapAll "Failed to create test case: ") (create_testcase_body o)

/-- `try` body of `ZephyrTestCaseMixin.update_testcase`. -/
def update_testcase_body (test_case_key : String) (o : ReqOutcome) :
    Except PyExc Unit :=
  match o with
  | .transportFail m => .error (.mcpAuth ("Request failed: " ++ m))
  | .response status _ =>
    if status == 404 then
      .error (.mcpNotFound ("Test case " ++ test_case_key ++ " not found"))
    else if !is_success status then
      .error (httpStatusExc status)
    else .ok ()

/-- `ZephyrTestCaseMixin.update_testcase`. -/
def update_testcase (test_case_key : String) (o : ReqOutcome) :
    Except PyExc Unit :=
  runOp (reclassify "Failed to update test case: ")
    (update_testcase_body test_case_key o)

/-- `try` body of `ZephyrTestCaseMixin.delete_testcase`. -/
def delete_testcase_body (test_case_key : String) (o : ReqOutcome) :
    Except PyExc Unit :=
  match o with
  | .transportFail m => .error (.mcpAuth ("Request failed: " ++ m))
  | .response status _ =>
    if status == 404 then
      .error (.mcpNotFound ("Test case " ++ test_case_key ++ " not found"))
    else if !is_success status then
      .error (httpStatusExc status)
    else .ok ()

/-- `ZephyrTestCaseMixin.delete_testcase`. -/
def delete_testcase (test_case_key : String) (o : ReqOutcome) :
    Except PyExc Unit :=
  runOp (reclassify "Failed to delete test case: ")
    (delete_testcase_body test_case_key o)

/-- The search response unwrapping: a bare array is used as is; a mapping
falls back to `result.get("results", [])`.  Iterating a string yields its
characters and iterating a dict yields its keys (none of which parse as
records); iterating anything else raises, as does `.get` on a non-mapping
top-level body. -/
def extractResultsList : JValue → Except PyExc (List JValue)
  | .arr elems => .ok elems
  | .obj fs =>
    match lookupField fs "results" with
    | none => .ok []
    | some (.arr elems) => .ok elems
    | some (.str s) => .ok (s.toList.map fun c => .str (String.mk [c]))
    | some (.obj inner) => .ok (inner.map fun kv => .str kv.1)
    | some _ => .error (.other "TypeError: not iterable")
  | _ => .error (.other "AttributeError")

/-- The per-element parse loop of `search_testcases`: each element is
parsed in its own `try`; a failing element is logged and skipped and the
loop continues. -/
def parseLoop : List JValue → List ZephyrTestCase
  | [] => []
  | d :: rest =>
    match ZephyrTestCase.from_api_response d with
    | some tc => tc :: parseLoop rest
    | none => parseLoop rest

/-- `try` body of `ZephyrTestCaseMixin.search_testcases`: no 404 branch
(`raise_for_status` covers every non-2xx), then unwrap and parse
element-wise. -/
def search_testcases_body (o : ReqOutcome) :
    Except PyExc (List ZephyrTestCase) :=
  match o with
  | .transportFail m => .error (.mcpAuth ("Request failed: " ++ m))
  | .response status body =>
    if !is_success status then
      .error (httpStatusExc status)
    else
      (extractResultsList body).map parseLoop

/-- `ZephyrTestCaseMixin.search_testcases`.  Its handler tests
`isinstance(e, MCPAtlassianError)`, which admits the same two typed
classes as the other handlers' two-class tuple. -/
def search_testcases (o : ReqOutcome) : Except PyExc (List ZephyrTestCase) :=
  runOp (reclassify "Failed to search test cases: ") (search_testcases_body o)

/-- `try` body of `ZephyrTestResultMixin.create_testresult`: like test-case
creation but returning `result.get("id", 0)`. -/
def create_testresult_body (o : ReqOutcome) : Except PyExc JValue :=
  match o with
  | .transportFail m => .error (.mcpAuth ("Request failed: " ++ m))
  | .response status body =>
    if !is_success status then
      .error (httpStatusExc status)
    else
      match body with
      | .obj fs => .ok ((lookupField fs "id").getD (.num 0))
      | _ => .error (.other "AttributeError")

/-- `ZephyrTestResultMixin.create_testresult`: its `except` handler also
wraps every caught exception, with no `isinstance` passthrough. -/
def create_testresult (o : ReqOutcome) : Except PyExc JValue :=
  runOp (wrapAll "Failed to create test result: ") (create_testresult_body o)

/-- The success envelope of the `search_testcases` tool
(`servers/zephyr.py`): `results = [tc.to_simplified_dict() ...]` paired
with `count = len(results)`.  The failure envelope carries no list and no
count and is embedded as `none`. -/
def search_testcases_tool (o : ReqOutcome) :
    Option (List (List (String × JValue)) × Nat) :=
  match search_testcases o with
  | .ok tcs =>
    some (tcs.map ZephyrTestCase.to_simplified_dict,
      (tcs.map ZephyrTestCase.to_simplified_dict).length)
  | .error _ => none

/-! ### Step assembly (`zephyr/client.py`) -/

/-- Lift a field read to the exception monad (a failed read is a raised
pydantic validation error). -/
def orValidationError {α : Type} : Option α → Except PyExc α
  | some a => .ok a
  | none => .error (.other "validation error")

/-- One iteration of the `STEP_BY_STEP` loop in
`ZephyrClient.get_test_steps`: element `idx` (0-based) becomes a `TestStep`
with `order_id = idx + 1`, fields read from `description` / `testData` /
`expectedResult` / `id`.  A non-mapping element raises `AttributeError`. -/
def parseScriptStep (idx : Nat) : JValue → Except PyExc TestStep
  | .obj fs =>
    (orValidationError (getStrD fs "description" "")).bind fun description =>
    (orValidationError (getStrD fs "testData" "")).bind fun testData =>
    (orValidationError (getStrD fs "expectedResult" "")).bind fun expected =>
    (orValidationError (getOptInt fs "id")).bind fun step_id =>
    .ok (TestStep.mk ((idx : Int) + 1) description testData expected step_id)
  | _ => .error (.other "AttributeError")

/-- The `enumerate(script_steps)` loop, with `idx` the index of the first
remaining element. -/
def parseScriptSteps (idx : Nat) : List JValue → Except PyExc (List TestStep)
  | [] => .ok []
  | sd :: rest =>
    (parseScriptStep idx sd).bind fun s =>
    (parseScriptSteps (idx + 1) rest).map (s :: ·)

/-- Iterating `test_script.get("steps", [])`: a list is looped over; a
string yields its characters and a mapping its keys (either way the first
element's `.get` raises unless the iteration is empty); anything else is
not iterable. -/
def interpretSteps : JValue → Except PyExc (List TestStep)
  | .arr elems => parseScriptSteps 0 elems
  | .str s => if s.isEmpty then .ok [] else .error (.other "AttributeError")
  | .obj fs => if fs.isEmpty then .ok [] else .error (.other "AttributeError")
  | _ => .error (.other "TypeError: not iterable")

/-- The `PLAIN_TEXT` branch: `text_content = test_script.get("text", "")`;
only a truthy (non-empty, non-null) text synthesizes the single step with
`order_id = 1`; a truthy non-string raises at record construction. -/
def plainTextSteps (tsf : List (String × JValue)) :
    Except PyExc (List TestStep) :=
  match lookupField tsf "text" with
  | none => .ok []
  | some v =>
    if !jTruthy v then .ok []
    else
      match v with
      | .str s => .ok [TestStep.mk 1 s "" "" none]
      | _ => .error (.other "validation error")

/-- `try` body of `ZephyrClient.get_test_steps`: a 404 RETURNS the empty
step collection for the caller's issue/project pair instead of raising;
on 2xx the `testScript` member (defaulting to `{}`) is interpreted by its
declared type, an unrecognized or absent type leaving the steps empty. -/
def get_test_steps_body (issue_id project_id : String) (o : ReqOutcome) :
    Except PyExc ZephyrTestSteps :=
  match o with
  | .transportFail m => .error (.mcpAuth ("Request failed: " ++ m))
  | .response status body =>
    if status == 404 then .ok (ZephyrTestSteps.mk issue_id project_id [])
    else if !is_success status then .error (httpStatusExc status)
    else
      match body with
      | .obj fs =>
        (stepsOfScript ((lookupField fs "testScript").getD (.obj []))).map
          fun steps => ZephyrTestSteps.mk issue_id project_id steps
      | _ => .error (.other "AttributeError")
where
  /-- `if test_script and test_script.get("type") == ...`: a falsy script
  (notably the `{}` default) skips both branches; a truthy non-mapping
  raises on `.get`. -/
  stepsOfScript : JValue → Except PyExc (List TestStep)
    | script =>
      if !jTruthy script then .ok []
      else
        match script with
        | .obj tsf =>
          match lookupField tsf "type" with
          | some (.str "STEP_BY_STEP") =>
            interpretSteps ((lookupField tsf "steps").getD (.arr []))
          | some (.str "PLAIN_TEXT") => plainTextSteps tsf
          | _ => .ok []
        | _ => .error (.other "AttributeError")

/-- Whether `pat` starts the character list `s`. -/
def startsWithPat : List Char → List Char → Bool
  | [], _ => true
  | _ :: _, [] => false
  | a :: pat, b :: s => a == b && startsWithPat pat s

/-- Python's `pat in s` on strings: `pat` occurs contiguously in `s`. -/
def hasSubPat (pat : List Char) : List Char → Bool
  | [] => startsWithPat pat []
  | b :: s => startsWithPat pat (b :: s) || hasSubPat pat s

/-- The `except` handler shared by the three step operations: every caught
exception is re-raised as `MCPAtlassianAuthenticationError`, with an
`"Authentication failed: "` start when `str(e)` mentions authentication
or 401 and the operation-specific start otherwise. -/
def stepExceptWrap (ctx : String) (e : PyExc) : PyExc :=
  let s := e.msgOf
  if hasSubPat "authentication".toList s.toLower.toList ||
      hasSubPat "401".toList s.toList then
    .mcpAuth ("Authentication failed: " ++ s)
  else
    .mcpAuth (ctx ++ s)

/-- `ZephyrClient.get_test_steps`. -/
def get_test_steps (issue_id project_id : String) (o : ReqOutcome) :
    Except PyExc ZephyrTestSteps :=
  runOp (stepExceptWrap "Failed to get test steps: ")
    (get_test_steps_body issue_id project_id o)

/-- One entry of the `script_steps` list assembled before the `PUT`:
only the three content fields, no order and no id. -/
structure ScriptStep where
  description : String
  testData : String
  expectedResult : String
  deriving Repr, DecidableEq

/-- The `script_steps` assembly loop: each step contributes its
`step` / `data` / `result` content. -/
def build_script_steps (steps : List TestStep) : List ScriptStep :=
  steps.map fun s => ScriptStep.mk s.step s.data s.result

/-- A `script_steps` entry as the JSON object the `PUT` payload carries. -/
def scriptStepToJson (s : ScriptStep) : JValue :=
  .obj [("description", .str s.description), ("testData", .str s.testData),
    ("expectedResult", .str s.expectedResult)]

/-- The `for i, step_request in enumerate(step_requests)` loop of
`add_multiple_test_steps`: request `i` becomes a step with
`order_id = next_order + i` (`next_order` increasing along the recursion)
and content `step` / `data or ""` / `result or ""`; `step_id` stays unset.
For an `Option String` value `v`, Python's `v or ""` and `v.getD ""` agree
(both map `None` to `""` and keep any string, the empty string staying
empty). -/
def make_new_steps (next_order : Int) :
    List TestStepRequest → List TestStep
  | [] => []
  | r :: rs =>
    TestStep.mk next_order r.step (r.data.getD "") (r.result.getD "") none
      :: make_new_steps (next_order + 1) rs

/-- The `script_steps` value of the `PUT` payload assembled by
`add_multiple_test_steps`: old steps followed by the new ones, scriptized
(`payload = {"testScript": {"type": "STEP_BY_STEP", "steps": script_steps}}`). -/
def add_multiple_payload (current : List TestStep)
    (reqs : List TestStepRequest) : List ScriptStep :=
  build_script_steps (current ++ make_new_steps ((current.length : Int) + 1) reqs)

/-- Re-reading the steps written by the `PUT`: the payload's `steps` array
run through the `STEP_BY_STEP` interpretation of `get_test_steps`. -/
def reinterpretPayload (payload : List ScriptStep) :
    Except PyExc (List TestStep) :=
  interpretSteps (.arr (payload.map scriptStepToJson))

/-- `try` body of `ZephyrClient.add_multiple_test_steps`: read the current
steps (any raise propagates), build the new steps from
`next_order = len(current) + 1`, `PUT` the recomposed script (404 raises
`MCPAtlassianAuthenticationError` naming the case), and return the list of
new steps. -/
def add_multiple_test_steps_body (issue_id project_id : String)
    (step_requests : List TestStepRequest) (getO putO : ReqOutcome) :
    Except PyExc (List TestStep) :=
  (get_test_steps issue_id project_id getO).bind fun current =>
  let new_steps := make_new_steps ((current.steps.length : Int) + 1)
    step_requests
  match putO with
  | .transportFail m => .error (.mcpAuth ("Request failed: " ++ m))
  | .response status _ =>
    if status == 404 then
      .error (.mcpAuth ("Test case " ++ issue_id ++ " not found"))
    else if !is_success status then .error (httpStatusExc status)
    else .ok new_steps

/-- `ZephyrClient.add_multiple_test_steps`. -/
def add_multiple_test_steps (issue_id project_id : String)
    (step_requests : List TestStepRequest) (getO putO : ReqOutcome) :
    Except PyExc (List TestStep) :=
  runOp (stepExceptWrap "Failed to add test steps: ")
    (add_multiple_test_steps_body issue_id project_id step_requests getO putO)

/-- `try` body of `ZephyrClient.add_test_step`: the single-step variant,
returning the one new step with `order_id = len(current) + 1`. -/
def add_test_step_body (issue_id project_id : String)
    (step_request : TestStepRequest) (getO putO : ReqOutcome) :
    Except PyExc TestStep :=
  (get_test_steps issue_id project_id getO).bind fun current =>
  let new_step := TestStep.mk ((current.steps.length : Int) + 1)
    step_request.step (step_request.data.getD "")
    (step_request.result.getD "") none
  match putO with
  | .transportFail m => .error (.mcpAuth ("Request failed: " ++ m))
  | .response status _ =>
    if status == 404 then
      .error (.mcpAuth ("Test case " ++ issue_id ++ " not found"))
    else if !is_success status then .error (httpStatusExc status)
    else .ok new_step

/-- `ZephyrClient.add_test_step`. -/
def add_test_step (issue_id project_id : String)
    (step_request : TestStepRequest) (getO putO : ReqOutcome) :
    Except PyExc TestStep :=
  runOp (stepExceptWrap "Failed to add test step: ")
    (add_test_step_body issue_id project_id step_request getO putO)

/-! ## Claims -/

/-- C4: constructing a `ZephyrTestCase` from the body
`{"key":"JQA-T1234","name":"Login","projectKey":"JQA","status":"Draft",
"priority":"High"}` and simplifying it yields exactly the nine-entry
mapping of the spec's scenario — the five scalar fields, `folder` as JSON
`null`, `labels` as `[]`, and empty `created_on`/`last_modified_on` — with
no other keys present. -/
theorem testcase_simplify_scenario :
    (ZephyrTestCase.from_api_response (.obj
        [("key", .str "JQA-T1234"), ("name", .str "Login"),
         ("projectKey", .str "JQA"), ("status", .str "Draft"),
         ("priority", .str "High")])).map
      ZephyrTestCase.to_simplified_dict =
    some [("key", .str "JQA-T1234"), ("name", .str "Login"),
      ("project_key", .str "JQA"), ("status", .str "Draft"),
      ("priority", .str "High"), ("folder", .null), ("labels", .arr []),
      ("created_on", .str ""), ("last_modified_on", .str "")] := by
  decide

/-- C8: `get_testcase` maps an HTTP 404 to a not-found error whose message
names the requested key, while any other non-2xx status and any transport
failure produce the generic operation error instead. -/
theorem get_testcase_notfound_vs_generic (key : String) (body : JValue)
    (status : Nat) (hns : is_success status = false) (h404 : status ≠ 404) :
    get_testcase key (.response 404 body) =
      .error (.mcpNotFound ("Test case " ++ key ++ " not found")) ∧
    get_testcase key (.response status body) =
      .error (.mcpError
        ("Failed to get test case: " ++ ("HTTP status error " ++ toString status))) ∧
    (∀ m, get_testcase key (.transportFail m) =
      .error (.mcpError ("Failed to get test case: Request failed: " ++ m))) := by
  refine ⟨rfl, ?_, fun m => rfl⟩
  have hb : (status == 404) = false := by
    simpa using h404
  simp [get_testcase, get_testcase_body, hb, hns, runOp, reclassify,
    PyExc.isMCPAtlassianError, httpStatusExc, PyExc.msgOf]

/-- Witness for C8 at status 500 and key `JQA-T1234`. -/
theorem get_testcase_notfound_vs_generic_witness :
    get_testcase "JQA-T1234" (.response 404 (.obj [])) =
      .error (.mcpNotFound "Test case JQA-T1234 not found") ∧
    get_testcase "JQA-T1234" (.response 500 (.obj [])) =
      .error (.mcpError "Failed to get test case: HTTP status error 500") := by
  have h := get_testcase_notfound_vs_generic "JQA-T1234" (.obj []) 500
    (by decide) (by decide)
  exact ⟨h.1, h.2.1⟩

/-- C3 counterexample: a transport failure reaches the resource operation
as an already-typed `MCPAtlassianAuthenticationError("Request failed:
boom")`, yet both `create_testcase` and `get_testcase` re-wrap it as a
generic `MCPAtlassianError` — the typed failure does not propagate
unchanged, because `MCPAtlassianAuthenticationError` does not subclass
`MCPAtlassianError` and so fails every handler's `isinstance` test. -/
theorem create_and_get_wrap_auth_counterexample :
    create_testcase (.transportFail "boom") =
      .error (.mcpError "Failed to create test case: Request failed: boom") ∧
    get_testcase "JQA-T1234" (.transportFail "boom") =
      .error (.mcpError "Failed to get test case: Request failed: boom") := by
  exact ⟨rfl, rfl⟩

/-- C3 amended: in `get`/`update`/`delete`/`search`, caught not-found and
generic errors pass through unchanged while authentication errors — not
being `MCPAtlassianError` subclasses — and unrecognized exceptions are
wrapped with resource-specific context; `create_testcase` and
`create_testresult` wrap every caught exception, typed or not. -/
theorem error_reclassification_amended (m key : String) :
    (∀ ctx, reclassify ctx (.mcpNotFound m) = .mcpNotFound m) ∧
    (∀ ctx, reclassify ctx (.mcpError m) = .mcpError m) ∧
    (∀ ctx, reclassify ctx (.mcpAuth m) = .mcpError (ctx ++ m)) ∧
    (∀ ctx, reclassify ctx (.other m) = .mcpError (ctx ++ m)) ∧
    (∀ ctx e, wrapAll ctx e = .mcpError (ctx ++ e.msgOf)) ∧
    get_testcase key (.transportFail m) =
      .error (.mcpError ("Failed to get test case: Request failed: " ++ m)) ∧
    update_testcase key (.transportFail m) =
      .error (.mcpError ("Failed to update test case: Request failed: " ++ m)) ∧
    delete_testcase key (.transportFail m) =
      .error (.mcpError ("Failed to delete test case: Request failed: " ++ m)) ∧
    search_testcases (.transportFail m) =
      .error (.mcpError ("Failed to search test cases: Request failed: " ++ m)) ∧
    create_testcase (.transportFail m) =
      .error (.mcpError ("Failed to create test case: Request failed: " ++ m)) ∧
    create_testresult (.transportFail m) =
      .error (.mcpError ("Failed to create test result: Request failed: " ++ m)) ∧
    get_testcase key (.response 404 (.obj [])) =
      .error (.mcpNotFound ("Test case " ++ key ++ " not found")) := by
  refine ⟨fun ctx => rfl, fun ctx => rfl, fun ctx => rfl, fun ctx => rfl,
    fun ctx e => rfl, rfl, rfl, rfl, rfl, rfl, rfl, rfl⟩

/-- C10: a step object lacking `orderId` parses with `order_id = 0`, and
whatever integer is stored under `orderId` is taken verbatim — nothing
renumbers or validates the 1-based contiguous invariant. -/
theorem teststep_orderid_unvalidated (fs : List (String × JValue))
    (ts : TestStep) (habsent : lookupField fs "orderId" = none)
    (h : TestStep.from_api_response (.obj fs) = some ts) :
    ts.order_id = 0 ∧
    (∀ (n : Int) (s : String),
      TestStep.from_api_response (.obj [("orderId", .num n), ("step", .str s)]) =
        some (TestStep.mk n s "" "" none)) := by
  constructor
  · simp only [TestStep.from_api_response, TestStep.from_api_response.getIntD,
      habsent, Option.some_bind, Option.bind_eq_some, Option.some_inj] at h
    obtain ⟨step, _, data, _, result, _, sid, _, hmk⟩ := h
    rw [← hmk]
  · intro n s
    simp [TestStep.from_api_response, TestStep.from_api_response.getIntD,
      lookupField, getStrD, getOptInt]

/-- Witness for C10: `{"step":"s"}` parses with `order_id = 0`. -/
theorem teststep_orderid_unvalidated_witness :
    TestStep.from_api_response (.obj [("step", .str "s")]) =
      some (TestStep.mk 0 "s" "" "" none) ∧
    (TestStep.mk 0 "s" "" "" none).order_id = 0 := by
  refine ⟨by decide, ?_⟩
  exact (teststep_orderid_unvalidated [("step", .str "s")]
    (TestStep.mk 0 "s" "" "" none) (by decide) (by decide)).1

/-- The element-wise parse loop keeps exactly the well-formed elements, in
order: it is `filterMap` of the single-record parse. -/
theorem parseLoop_eq_filterMap (elems : List JValue) :
    parseLoop elems = elems.filterMap ZephyrTestCase.from_api_response := by
  induction elems with
  | nil => rfl
  | cons d rest ih =>
    simp only [parseLoop, List.filterMap_cons]
    cases ZephyrTestCase.from_api_response d <;> simp [ih]

/-- C1: on any 2xx search response whose body is an array, or a mapping
wrapping an array under `results`, `search_testcases` returns one parsed
record per well-formed element, skipping each malformed element
individually, and the tool envelope's `count` equals the length of the
returned list. -/
theorem search_testcases_partial_success (status : Nat) (body : JValue)
    (elems : List JValue) (hs : is_success status = true)
    (hx : extractResultsList body = .ok elems) :
    search_testcases (.response status body) =
      .ok (elems.filterMap ZephyrTestCase.from_api_response) ∧
    ∀ env, search_testcases_tool (.response status body) = some env →
      env.2 = env.1.length := by
  have hbody : search_testcases (.response status body) =
      .ok (parseLoop elems) := by
    simp [search_testcases, search_testcases_body, hs, hx, runOp, Except.map]
  constructor
  · rw [hbody, parseLoop_eq_filterMap]
  · intro env henv
    simp only [search_testcases_tool, hbody] at henv
    rw [← Option.some_inj.mp henv]

/-- The four-element search body of the C1 witness: three well-formed
records and one malformed element (a bare string, on which `.get`
raises). -/
def sampleSearchElems : List JValue :=
  [.obj [("key", .str "K1")], .str "oops", .obj [("key", .str "K2")],
   .obj [("key", .str "K3")]]

/-- Witness for C1: the four-element array parses to exactly the three
well-formed records — not zero, not an exception — and the envelope count
is 3. -/
theorem search_testcases_partial_success_witness :
    search_testcases (.response 200 (.arr sampleSearchElems)) =
      .ok (sampleSearchElems.filterMap ZephyrTestCase.from_api_response) ∧
    (sampleSearchElems.filterMap ZephyrTestCase.from_api_response).length = 3 ∧
    (search_testcases_tool (.response 200 (.arr sampleSearchElems))).map
      (fun env => env.2) = some 3 := by
  refine ⟨(search_testcases_partial_success 200 (.arr sampleSearchElems)
    sampleSearchElems (by decide) rfl).1, by decide, by decide⟩

/-- C2 counterexample: the empty payload is a valid test-case body with
every optional field absent, yet the simplified output CONTAINS
`"folder": null` — the defaulted-away optional `folder` is represented by
null, not by omission (and `labels` likewise appears as `[]`), because
both belong to the always-emitted base mapping. -/
theorem simplify_folder_null_counterexample :
    ZephyrTestCase.from_api_response (.obj []) =
      some ({} : ZephyrTestCase) ∧
    ("folder", JValue.null) ∈
      ZephyrTestCase.to_simplified_dict ({} : ZephyrTestCase) ∧
    ("labels", JValue.arr []) ∈
      ZephyrTestCase.to_simplified_dict ({} : ZephyrTestCase) := by
  exact ⟨by decide, by decide, by decide⟩

/-- C2 amended: a payload with the optional fields absent parses to the
documented defaults, and the simplified output omits every CONDITIONAL
optional field (component, owner, estimated_time, objective, precondition,
test_script, parameters, custom_fields, issue_links, created_by,
last_modified_by) — but `folder` and `labels` sit in the fixed base
mapping, so a defaulted `folder` appears as null and defaulted `labels`
as `[]` rather than being omitted. -/
theorem optional_defaults_amended (fs : List (String × JValue))
    (tc : ZephyrTestCase)
    (hcomponent : lookupField fs "component" = none)
    (howner : lookupField fs "owner" = none)
    (hestimated : lookupField fs "estimatedTime" = none)
    (hfolder : lookupField fs "folder" = none)
    (hlabels : lookupField fs "labels" = none)
    (hobjective : lookupField fs "objective" = none)
    (hprecondition : lookupField fs "precondition" = none)
    (hscript : lookupField fs "testScript" = none)
    (hparameters : lookupField fs "parameters" = none)
    (hcustom : lookupField fs "customFields" = none)
    (hlinks : lookupField fs "issueLinks" = none)
    (hcreatedby : lookupField fs "createdBy" = none)
    (hmodifiedby : lookupField fs "lastModifiedBy" = none)
    (htc : ZephyrTestCase.from_api_response (.obj fs) = some tc) :
    (tc.component = none ∧ tc.owner = none ∧ tc.estimated_time = none ∧
     tc.folder = none ∧ tc.labels = [] ∧ tc.objective = none ∧
     tc.precondition = none ∧ tc.test_script = none ∧ tc.parameters = none ∧
     tc.custom_fields = [] ∧ tc.issue_links = [] ∧ tc.created_by = none ∧
     tc.last_modified_by = none) ∧
    ZephyrTestCase.to_simplified_dict tc =
      [("key", .str tc.key), ("name", .str tc.name),
       ("project_key", .str tc.project_key), ("status", .str tc.status),
       ("priority", .str tc.priority), ("folder", .null),
       ("labels", .arr []),
       ("created_on", .str (format_timestamp tc.created_on)),
       ("last_modified_on", .str (format_timestamp tc.last_modified_on))] := by
  have h2 : tcGroup2 fs = some (none, none, none, none) := by
    simp [tcGroup2, getOptStr, getOptInt, hcomponent, howner, hestimated,
      hfolder]
  have h3 : tcGroup3 fs = some ([], none, none, none, none) := by
    simp [tcGroup3, getStrListD, getOptStr, getObjOpt, hlabels, hobjective,
      hprecondition, hscript, hparameters]
  have h4 : tcGroup4 fs = (getStrD fs "createdOn" "").bind fun c =>
      (getStrD fs "lastModifiedOn" "").bind fun l =>
      some ([], [], c, l, none, none) := by
    simp [tcGroup4, getObjD, getStrListD, getOptStr, hcustom, hlinks,
      hcreatedby, hmodifiedby]
  simp only [ZephyrTestCase.from_api_response, h2, h3, h4,
    Option.some_bind] at htc
  obtain ⟨⟨k, n, pk, st, pr⟩, hq1, htc⟩ := Option.bind_eq_some.mp htc
  dsimp only at htc
  obtain ⟨g4, hg4, htc⟩ := Option.bind_eq_some.mp htc
  obtain ⟨con, hcon, hg4⟩ := Option.bind_eq_some.mp hg4
  obtain ⟨lon, hlon, hg4⟩ := Option.bind_eq_some.mp hg4
  cases Option.some_inj.mp hg4
  cases Option.some_inj.mp htc
  refine ⟨⟨rfl, rfl, rfl, rfl, rfl, rfl, rfl, rfl, rfl, rfl, rfl, rfl, rfl⟩,
    ?_⟩
  simp [ZephyrTestCase.to_simplified_dict, optStrEntry]

/-- Witness for C2's amended theorem at the empty payload. -/
theorem optional_defaults_amended_witness :
    ZephyrTestCase.from_api_response (.obj []) =
      some ({} : ZephyrTestCase) ∧
    ZephyrTestCase.to_simplified_dict ({} : ZephyrTestCase) =
      [("key", .str ""), ("name", .str ""), ("project_key", .str ""),
       ("status", .str ""), ("priority", .str ""), ("folder", .null),
       ("labels", .arr []), ("created_on", .str ""),
       ("last_modified_on", .str "")] := by
  refine ⟨by decide, ?_⟩
  have h := optional_defaults_amended [] ({} : ZephyrTestCase)
    rfl rfl rfl rfl rfl rfl rfl rfl rfl rfl rfl rfl rfl (by decide)
  exact h.2

/-- `orderedFrom k l`: the steps of `l` carry the contiguous `order_id` run
`k, k+1, ...`. -/
def orderedFrom (k : Int) : List TestStep → Prop
  | [] => True
  | s :: rest => s.order_id = k ∧ orderedFrom (k + 1) rest

/-- The append loop assigns exactly the contiguous run starting at
`next_order`. -/
theorem make_new_steps_orderedFrom (next : Int) (reqs : List TestStepRequest) :
    orderedFrom next (make_new_steps next reqs) := by
  induction reqs generalizing next with
  | nil => trivial
  | cons r rs ih => exact ⟨rfl, ih (next + 1)⟩

/-- One new step per request. -/
theorem make_new_steps_length (next : Int) (reqs : List TestStepRequest) :
    (make_new_steps next reqs).length = reqs.length := by
  induction reqs generalizing next with
  | nil => rfl
  | cons r rs ih => simp [make_new_steps, ih]

/-- Scriptizing a concatenation concatenates the scriptized halves. -/
theorem build_script_steps_append (a b : List TestStep) :
    build_script_steps (a ++ b) =
      build_script_steps a ++ build_script_steps b := by
  simp [build_script_steps]

/-- The new steps scriptize to the requests' content, in request order. -/
theorem make_new_steps_content (next : Int) (reqs : List TestStepRequest) :
    build_script_steps (make_new_steps next reqs) =
      reqs.map (fun r =>
        ScriptStep.mk r.step (r.data.getD "") (r.result.getD "")) := by
  induction reqs generalizing next with
  | nil => rfl
  | cons r rs ih =>
    have hrs := ih (next + 1)
    simp only [make_new_steps, build_script_steps, List.map_cons] at hrs ⊢
    rw [hrs]

/-- C5: with any readable current step sequence and a successful `PUT`,
appending `N` requests returns the `N` new steps, whose `order_id`s form
the contiguous run starting at `len(current)+1`, and the recomposed script
is the old steps' content followed by the requests' content in request
order. -/
theorem add_steps_contiguous (issue_id project_id : String)
    (reqs : List TestStepRequest) (getO : ReqOutcome) (cur : ZephyrTestSteps)
    (hget : get_test_steps issue_id project_id getO = .ok cur)
    (putStatus : Nat) (hput : is_success putStatus = true) (putBody : JValue) :
    add_multiple_test_steps issue_id project_id reqs getO
        (.response putStatus putBody) =
      .ok (make_new_steps ((cur.steps.length : Int) + 1) reqs) ∧
    orderedFrom ((cur.steps.length : Int) + 1)
      (make_new_steps ((cur.steps.length : Int) + 1) reqs) ∧
    (make_new_steps ((cur.steps.length : Int) + 1) reqs).length =
      reqs.length ∧
    add_multiple_payload cur.steps reqs =
      build_script_steps cur.steps ++
        reqs.map (fun r =>
          ScriptStep.mk r.step (r.data.getD "") (r.result.getD "")) := by
  have hp : 200 ≤ putStatus ∧ putStatus < 300 := by
    simpa [is_success, Bool.and_eq_true, decide_eq_true_eq] using hput
  have h404 : (putStatus == 404) = false := by
    simp only [beq_eq_false_iff_ne, ne_eq]
    omega
  refine ⟨?_, make_new_steps_orderedFrom _ reqs, make_new_steps_length _ reqs,
    ?_⟩
  · simp [add_multiple_test_steps, add_multiple_test_steps_body, hget,
      runOp, Except.bind, h404, hput]
  · rw [add_multiple_payload, build_script_steps_append,
      make_new_steps_content]

/-- Witness for C5: one existing `STEP_BY_STEP` step and two requests give
new steps with order ids 2 and 3 and the expected recomposed script. -/
theorem add_steps_contiguous_witness :
    add_multiple_test_steps "JQA-T1" "P1"
        [TestStepRequest.mk "a" none none,
         TestStepRequest.mk "b" (some "d") none]
        (.response 200 (.obj [("testScript",
          .obj [("type", .str "STEP_BY_STEP"),
            ("steps", .arr [.obj [("description", .str "old1")]])])]))
        (.response 200 (.obj [])) =
      .ok [TestStep.mk 2 "a" "" "" none, TestStep.mk 3 "b" "d" "" none] ∧
    add_multiple_payload [TestStep.mk 1 "old1" "" "" none]
        [TestStepRequest.mk "a" none none,
         TestStepRequest.mk "b" (some "d") none] =
      [ScriptStep.mk "old1" "" "", ScriptStep.mk "a" "" "",
       ScriptStep.mk "b" "d" ""] := by
  have h := add_steps_contiguous "JQA-T1" "P1"
    [TestStepRequest.mk "a" none none,
     TestStepRequest.mk "b" (some "d") none]
    (.response 200 (.obj [("testScript",
      .obj [("type", .str "STEP_BY_STEP"),
        ("steps", .arr [.obj [("description", .str "old1")]])])]))
    (ZephyrTestSteps.mk "JQA-T1" "P1" [TestStep.mk 1 "old1" "" "" none])
    (by decide) 200 (by decide) (.obj [])
  exact ⟨h.1, by decide⟩

/-- A successfully parsed script step carries `order_id = idx + 1`. -/
theorem parseScriptStep_order_id (idx : Nat) (sd : JValue) (s : TestStep)
    (h : parseScriptStep idx sd = .ok s) : s.order_id = (idx : Int) + 1 := by
  cases sd with
  | obj fs =>
    simp only [parseScriptStep] at h
    cases hd : orValidationError (getStrD fs "description" "") with
    | error e => rw [hd] at h; exact absurd h (by simp [Except.bind])
    | ok d =>
      rw [hd] at h
      cases ht : orValidationError (getStrD fs "testData" "") with
      | error e => rw [ht] at h; exact absurd h (by simp [Except.bind])
      | ok t =>
        rw [ht] at h
        cases he : orValidationError (getStrD fs "expectedResult" "") with
        | error e => rw [he] at h; exact absurd h (by simp [Except.bind])
        | ok e =>
          rw [he] at h
          cases hi : orValidationError (getOptInt fs "id") with
          | error e2 => rw [hi] at h; exact absurd h (by simp [Except.bind])
          | ok i =>
            rw [hi] at h
            simp only [Except.bind] at h
            cases h
            rfl
  | null => exact absurd h (by simp [parseScriptStep])
  | bool b => exact absurd h (by simp [parseScriptStep])
  | num n => exact absurd h (by simp [parseScriptStep])
  | str s2 => exact absurd h (by simp [parseScriptStep])
  | arr a => exact absurd h (by simp [parseScriptStep])

/-- Steps parsed from a `STEP_BY_STEP` script starting at index `idx` carry
the contiguous `order_id` run from `idx + 1`. -/
theorem parseScriptSteps_ordered (elems : List JValue) (idx : Nat)
    (l : List TestStep) (h : parseScriptSteps idx elems = .ok l) :
    orderedFrom ((idx : Int) + 1) l := by
  induction elems generalizing idx l with
  | nil =>
    simp only [parseScriptSteps] at h
    cases h
    trivial
  | cons sd rest ih =>
    simp only [parseScriptSteps] at h
    cases hps : parseScriptStep idx sd with
    | error e => rw [hps] at h; exact absurd h (by simp [Except.bind])
    | ok s =>
      rw [hps] at h
      cases hrest : parseScriptSteps (idx + 1) rest with
      | error e =>
        rw [hrest] at h
        exact absurd h (by simp [Except.bind, Except.map])
      | ok l2 =>
        rw [hrest] at h
        simp only [Except.bind, Except.map] at h
        cases h
        refine ⟨parseScriptStep_order_id idx sd s hps, ?_⟩
        have := ih (idx + 1) l2 hrest
        simpa [add_assoc] using this

/-- An unwrapped `try` result that survives the `except` handler was
already a success. -/
theorem runOp_ok {α : Type} (f : PyExc → PyExc) (x : Except PyExc α)
    (a : α) (h : runOp f x = .ok a) : x = .ok a := by
  cases x with
  | ok b => simpa [runOp] using h
  | error e => exact absurd h (by simp [runOp])

/-- Steps interpreted from a `steps` member carry the positional run from
1. -/
theorem interpretSteps_ordered (sv : JValue) (steps : List TestStep)
    (h : interpretSteps sv = .ok steps) : orderedFrom 1 steps := by
  cases sv with
  | arr elems =>
    simp only [interpretSteps] at h
    simpa using parseScriptSteps_ordered elems 0 steps h
  | str s2 =>
    simp only [interpretSteps] at h
    split at h
    · cases h; trivial
    · exact absurd h (by simp)
  | obj fse =>
    simp only [interpretSteps] at h
    split at h
    · cases h; trivial
    · exact absurd h (by simp)
  | null => exact absurd h (by simp [interpretSteps])
  | bool b => exact absurd h (by simp [interpretSteps])
  | num n => exact absurd h (by simp [interpretSteps])

/-- The `PLAIN_TEXT` branch yields either no step or the single step with
`order_id = 1`. -/
theorem plainTextSteps_ordered (tsf : List (String × JValue))
    (steps : List TestStep) (h : plainTextSteps tsf = .ok steps) :
    orderedFrom 1 steps := by
  simp only [plainTextSteps] at h
  split at h
  · cases h; trivial
  · split at h
    · cases h; trivial
    · split at h
      · cases h; exact ⟨rfl, trivial⟩
      · exact absurd h (by simp)

/-- Whatever script arrives, an interpreted step sequence carries the
positional run from 1. -/
theorem stepsOfScript_ordered (script : JValue) (steps : List TestStep)
    (h : get_test_steps_body.stepsOfScript script = .ok steps) :
    orderedFrom 1 steps := by
  simp only [get_test_steps_body.stepsOfScript] at h
  split at h
  · cases h; trivial
  · split at h
    · split at h
      · exact interpretSteps_ordered _ steps h
      · exact plainTextSteps_ordered _ steps h
      · cases h; trivial
    · exact absurd h (by simp)

/-- Every step sequence `get_test_steps` returns carries the positional
`order_id` run 1, 2, ...: both interpretation branches assign order ids by
position and the 404 fallback is empty. -/
theorem get_test_steps_ordered (issue_id project_id : String)
    (o : ReqOutcome) (ts : ZephyrTestSteps)
    (h : get_test_steps issue_id project_id o = .ok ts) :
    orderedFrom 1 ts.steps := by
  have h2 := runOp_ok _ _ _ h
  cases o with
  | transportFail m => exact absurd h2 (by simp [get_test_steps_body])
  | response status body =>
    simp only [get_test_steps_body] at h2
    split at h2
    · cases h2; trivial
    · split at h2
      · exact absurd h2 (by simp)
      · split at h2
        · rename_i fs
          cases hsc : get_test_steps_body.stepsOfScript
              ((lookupField fs "testScript").getD (.obj [])) with
          | error e =>
            rw [hsc] at h2
            exact absurd h2 (by simp [Except.map])
          | ok steps =>
            rw [hsc] at h2
            simp only [Except.map] at h2
            cases h2
            exact stepsOfScript_ordered _ steps hsc
        · exact absurd h2 (by simp)

/-- Re-reading a scriptized step list whose `order_id`s are positional from
`idx + 1` reproduces each step's `order_id` and content exactly
(`step_id`, which the payload does not carry, is reset). -/
theorem reinterpret_scriptized (l : List TestStep) (idx : Nat)
    (h : orderedFrom ((idx : Int) + 1) l) :
    parseScriptSteps idx ((build_script_steps l).map scriptStepToJson) =
      .ok (l.map fun s => TestStep.mk s.order_id s.step s.data s.result none) := by
  induction l generalizing idx with
  | nil => rfl
  | cons s rest ih =>
    obtain ⟨h1, h2⟩ := h
    have hstep : parseScriptStep idx
        (scriptStepToJson (ScriptStep.mk s.step s.data s.result)) =
        .ok (TestStep.mk ((idx : Int) + 1) s.step s.data s.result none) := by
      simp [parseScriptStep, scriptStepToJson, lookupField, getStrD,
        getOptInt, orValidationError, Except.bind]
    have hrest : parseScriptSteps (idx + 1)
        ((build_script_steps rest).map scriptStepToJson) =
        .ok (rest.map fun s2 =>
          TestStep.mk s2.order_id s2.step s2.data s2.result none) := by
      apply ih
      have hcast : ((idx + 1 : Nat) : Int) + 1 = ((idx : Int) + 1) + 1 := by
        push_cast
        ring
      rw [hcast]
      exact h2
    simp only [build_script_steps, List.map_cons, parseScriptSteps, hstep,
      Except.bind]
    rw [show ((build_script_steps rest).map scriptStepToJson =
        (rest.map fun s2 => ScriptStep.mk s2.step s2.data s2.result).map
          scriptStepToJson) from rfl] at hrest
    rw [hrest]
    simp only [Except.map, h1]

/-- C6: appending zero steps returns the empty created-steps list, writes
back exactly the scriptized current steps, and re-reading the written
script reproduces the current steps' `order_id`s and content element for
element (only the remote-assigned `step_id`, which the script payload
cannot carry, is reset). -/
theorem append_zero_steps_noop (issue_id project_id : String)
    (getO : ReqOutcome) (cur : ZephyrTestSteps)
    (hget : get_test_steps issue_id project_id getO = .ok cur)
    (putStatus : Nat) (hput : is_success putStatus = true)
    (putBody : JValue) :
    add_multiple_test_steps issue_id project_id [] getO
        (.response putStatus putBody) = .ok [] ∧
    add_multiple_payload cur.steps [] = build_script_steps cur.steps ∧
    reinterpretPayload (add_multiple_payload cur.steps []) =
      .ok (cur.steps.map fun s =>
        TestStep.mk s.order_id s.step s.data s.result none) := by
  have hp : 200 ≤ putStatus ∧ putStatus < 300 := by
    simpa [is_success, Bool.and_eq_true, decide_eq_true_eq] using hput
  have h404 : (putStatus == 404) = false := by
    simp only [beq_eq_false_iff_ne, ne_eq]
    omega
  have hpayload : add_multiple_payload cur.steps [] =
      build_script_steps cur.steps := by
    simp [add_multiple_payload, make_new_steps]
  refine ⟨?_, hpayload, ?_⟩
  · simp [add_multiple_test_steps, add_multiple_test_steps_body, hget,
      runOp, Except.bind, h404, hput, make_new_steps]
  · rw [hpayload, reinterpretPayload, interpretSteps]
    exact reinterpret_scriptized cur.steps 0
      (by simpa using get_test_steps_ordered issue_id project_id getO cur hget)

/-- Witness for C6: two existing `STEP_BY_STEP` steps survive a zero-step
append unchanged. -/
theorem append_zero_steps_noop_witness :
    add_multiple_test_steps "JQA-T1" "P1" []
        (.response 200 (.obj [("testScript",
          .obj [("type", .str "STEP_BY_STEP"),
            ("steps", .arr [.obj [("description", .str "s1"),
                ("testData", .str "d1")],
              .obj [("description", .str "s2"), ("id", .num 7)]])])]))
        (.response 200 (.obj [])) = .ok [] ∧
    reinterpretPayload (add_multiple_payload
        [TestStep.mk 1 "s1" "d1" "" none, TestStep.mk 2 "s2" "" "" (some 7)]
        []) =
      .ok [TestStep.mk 1 "s1" "d1" "" none, TestStep.mk 2 "s2" "" "" none] := by
  have h := append_zero_steps_noop "JQA-T1" "P1"
    (.response 200 (.obj [("testScript",
      .obj [("type", .str "STEP_BY_STEP"),
        ("steps", .arr [.obj [("description", .str "s1"),
            ("testData", .str "d1")],
          .obj [("description", .str "s2"), ("id", .num 7)]])])]))
    (ZephyrTestSteps.mk "JQA-T1" "P1"
      [TestStep.mk 1 "s1" "d1" "" none, TestStep.mk 2 "s2" "" "" (some 7)])
    (by decide) 200 (by decide) (.obj [])
  exact ⟨h.1, h.2.2⟩

/-- C7 counterexample: a `PLAIN_TEXT` script whose text is the empty string
yields ZERO steps, not the single step carrying the whole text that the
claim promises for every `PLAIN_TEXT` script — the source only
synthesizes the step when the text is truthy. -/
theorem plain_text_empty_counterexample :
    get_test_steps "JQA-T1" "P1" (.response 200 (.obj [("testScript",
        .obj [("type", .str "PLAIN_TEXT"), ("text", .str "")])])) =
      .ok (ZephyrTestSteps.mk "JQA-T1" "P1" []) ∧
    get_test_steps "JQA-T1" "P1" (.response 200 (.obj [("testScript",
        .obj [("type", .str "PLAIN_TEXT"), ("text", .str "")])])) ≠
      .ok (ZephyrTestSteps.mk "JQA-T1" "P1"
        [TestStep.mk 1 "" "" "" none]) := by
  exact ⟨by decide, by decide⟩

/-- An unrecognized (or absent) script type falls through both
interpretation branches, leaving the step list empty. -/
theorem stepsOfScript_unrec (tsf : List (String × JValue))
    (htype : ∀ t, lookupField tsf "type" = some (.str t) →
      t ≠ "STEP_BY_STEP" ∧ t ≠ "PLAIN_TEXT") :
    get_test_steps_body.stepsOfScript (.obj tsf) = .ok [] := by
  rw [get_test_steps_body.stepsOfScript]
  split
  · rfl
  · split
    · rename_i heq
      exact absurd rfl (htype _ heq).1
    · rename_i heq
      exact absurd rfl (htype _ heq).2
    · rfl

/-- C7 amended: a `PLAIN_TEXT` script with a NON-EMPTY text yields exactly
the single step `order_id = 1` carrying the whole text; an empty text, an
absent script, and an unrecognized script type all yield the empty step
sequence. -/
theorem plain_text_steps_amended (issue_id project_id text : String)
    (ht : text ≠ "") (tsf : List (String × JValue))
    (htype : ∀ t, lookupField tsf "type" = some (.str t) →
      t ≠ "STEP_BY_STEP" ∧ t ≠ "PLAIN_TEXT") :
    get_test_steps issue_id project_id (.response 200 (.obj [("testScript",
        .obj [("type", .str "PLAIN_TEXT"), ("text", .str text)])])) =
      .ok (ZephyrTestSteps.mk issue_id project_id
        [TestStep.mk 1 text "" "" none]) ∧
    get_test_steps issue_id project_id (.response 200 (.obj [])) =
      .ok (ZephyrTestSteps.mk issue_id project_id []) ∧
    get_test_steps issue_id project_id
        (.response 200 (.obj [("testScript", .obj tsf)])) =
      .ok (ZephyrTestSteps.mk issue_id project_id []) := by
  have htE : text.isEmpty = false :=
    Bool.eq_false_iff.mpr (fun hb => ht ((String.isEmpty_iff text).mp hb))
  refine ⟨?_, by rfl, ?_⟩
  · simp [get_test_steps, get_test_steps_body, runOp, Except.map,
      get_test_steps_body.stepsOfScript, plainTextSteps, lookupField,
      jTruthy, htE, is_success]
  · simp [get_test_steps, get_test_steps_body, runOp, Except.map,
      lookupField, stepsOfScript_unrec tsf htype, is_success]

/-- Witness for C7's amended theorem: text `"Do X"` gives the spec
scenario's single step, and type `"WEIRD"` gives no steps. -/
theorem plain_text_steps_amended_witness :
    get_test_steps "JQA-T1" "P1" (.response 200 (.obj [("testScript",
        .obj [("type", .str "PLAIN_TEXT"), ("text", .str "Do X")])])) =
      .ok (ZephyrTestSteps.mk "JQA-T1" "P1"
        [TestStep.mk 1 "Do X" "" "" none]) ∧
    get_test_steps "JQA-T1" "P1" (.response 200
        (.obj [("testScript", .obj [("type", .str "WEIRD")])])) =
      .ok (ZephyrTestSteps.mk "JQA-T1" "P1" []) := by
  have h := plain_text_steps_amended "JQA-T1" "P1" "Do X" (by decide)
    [("type", .str "WEIRD")]
    (by
      intro t h
      simp [lookupField] at h
      subst h
      exact ⟨by decide, by decide⟩)
  exact ⟨h.1, h.2.2⟩

/-- Any exception leaving a step operation's `except` handler is an
`MCPAtlassianAuthenticationError`, whichever message branch fires. -/
theorem stepExceptWrap_isAuth (ctx : String) (e : PyExc) :
    ∃ m, stepExceptWrap ctx e = .mcpAuth m := by
  rw [stepExceptWrap]
  split
  · exact ⟨_, rfl⟩
  · exact ⟨_, rfl⟩

/-- C9: on the read path a 404 makes `get_test_steps` RETURN the empty
collection for the caller's issue/project pair, while on the write path a
404 during the `PUT` makes `add_test_step` and `add_multiple_test_steps`
raise a typed (authentication-class) error — never silently swallowed. -/
theorem step_read_404_empty_write_404_raises (issue_id project_id : String)
    (body putBody : JValue) (req : TestStepRequest) (getO : ReqOutcome)
    (cur : ZephyrTestSteps)
    (hget : get_test_steps issue_id project_id getO = .ok cur) :
    get_test_steps issue_id project_id (.response 404 body) =
      .ok (ZephyrTestSteps.mk issue_id project_id []) ∧
    (∃ m, add_test_step issue_id project_id req getO
      (.response 404 putBody) = .error (.mcpAuth m)) ∧
    (∃ m, add_multiple_test_steps issue_id project_id [req] getO
      (.response 404 putBody) = .error (.mcpAuth m)) := by
  refine ⟨rfl, ?_, ?_⟩
  · obtain ⟨m, hm⟩ := stepExceptWrap_isAuth "Failed to add test step: "
      (.mcpAuth ("Test case " ++ issue_id ++ " not found"))
    refine ⟨m, ?_⟩
    simp [add_test_step, add_test_step_body, hget, runOp, Except.bind, hm]
  · obtain ⟨m, hm⟩ := stepExceptWrap_isAuth "Failed to add test steps: "
      (.mcpAuth ("Test case " ++ issue_id ++ " not found"))
    refine ⟨m, ?_⟩
    simp [add_multiple_test_steps, add_multiple_test_steps_body, hget,
      runOp, Except.bind, hm]

/-- Witness for C9 at an empty current case and concrete 404 `PUT`s. -/
theorem step_read_404_empty_write_404_raises_witness :
    get_test_steps "JQA-T9" "P9" (.response 404 (.obj [])) =
      .ok (ZephyrTestSteps.mk "JQA-T9" "P9" []) ∧
    (∃ m, add_test_step "JQA-T9" "P9" (TestStepRequest.mk "s" none none)
      (.response 404 (.obj [])) (.response 404 (.obj [])) =
        .error (.mcpAuth m)) := by
  have h := step_read_404_empty_write_404_raises "JQA-T9" "P9"
    (.obj []) (.obj []) (TestStepRequest.mk "s" none none)
    (.response 404 (.obj []))
    (ZephyrTestSteps.mk "JQA-T9" "P9" []) (by decide)
  exact ⟨h.1, h.2.1⟩
